import Mathlib

/-!
Verification of the knowledge-atlas ingestion service backend.

The Python sources are shallowly embedded: the SQLite `entries` table becomes
a `List Entry`, each row a Lean structure whose fields mirror the table's
columns; database mutations become pure functions from the old table to the
new one.  Non-deterministic inputs of the code (uuid generation, the wall
clock, object-storage outcomes, HTTP responses, the language-model call) are
passed in as explicit parameters, since the Python code only consumes their
results.
-/

namespace KnowledgeAtlas

/-- A `datetime.now()` value.  `instant` is the instant on a monotone axis
(SQLite compares the stored text representations chronologically), and `ym`
is the rendering `now.strftime("%Y-%m")` that `add_entry` uses as the default
`entry_date`. -/
structure DateTime where
  instant : Nat
  ym : String
deriving DecidableEq

/-- One row of the `entries` table created by `init_db` in
`src/backend/database.py`.  Columns that the code can leave NULL are
`Option`-typed. -/
structure Entry where
  id : String
  theme : String
  source_type : String
  source_url : Option String
  entry_date : String
  process_stage : String
  tags : Option String
  summary_caption : Option String
  explain_like_im_5 : Option String
  file_storage_path : Option String
  created_at : DateTime
  updated_at : DateTime
deriving DecidableEq

/-! ### json.dumps model (used by `update_status` for the `tags` column) -/

/-- One hexadecimal digit, lowercase, as `json.dumps` renders escapes. -/
def hexDigit (n : Nat) : Char :=
  if n < 10 then Char.ofNat (48 + n) else Char.ofNat (87 + n)

/-- Four-digit lowercase hex rendering of `n % 65536`. -/
def hex4 (n : Nat) : String :=
  String.mk [hexDigit ((n / 4096) % 16), hexDigit ((n / 256) % 16),
             hexDigit ((n / 16) % 16), hexDigit (n % 16)]

/-- `json.dumps` escaping of a single character (default `ensure_ascii=True`:
ASCII control characters and all non-ASCII characters are `\uXXXX`-escaped,
astral characters as surrogate pairs). -/
def jsonEscapeChar (c : Char) : String :=
  let n := c.toNat
  if c = '"' then "\\\""
  else if c = '\\' then "\\\\"
  else if c = '\n' then "\\n"
  else if c = '\t' then "\\t"
  else if c = '\r' then "\\r"
  else if n = 8 then "\\b"
  else if n = 12 then "\\f"
  else if n < 32 ∨ n > 126 then
    if n ≥ 65536 then
      let v := n - 65536
      "\\u" ++ hex4 (55296 + v / 1024) ++ "\\u" ++ hex4 (56320 + v % 1024)
    else "\\u" ++ hex4 n
  else String.singleton c

/-- `json.dumps` of a Python string. -/
def jsonString (s : String) : String :=
  "\"" ++ String.join (s.toList.map jsonEscapeChar) ++ "\""

/-- `json.dumps` of a Python list of strings, as `update_status` serializes
the `tags` result field. -/
def jsonDumpsList (l : List String) : String :=
  "[" ++ String.intercalate ", " (l.map jsonString) ++ "]"

/-! ### Catalogue Store: `add_entry` -/

/-- The `entry_data` dict passed to `add_entry`: `source_type` and
`source_url` are accessed unconditionally (`entry_data['source_type']`,
`entry_data['source_url']`), while `theme` and `entry_date` are read with
`.get` and a default, so they are optional keys here. -/
structure NewEntryData where
  theme : Option String
  source_type : String
  source_url : Option String
  entry_date : Option String
deriving DecidableEq

/-- `add_entry(entry_data)` of `src/backend/database.py`.  The freshly drawn
`str(uuid.uuid4())` and `datetime.now()` are the parameters `new_id` and
`now`; the INSERT appends one row and the function returns `new_id`.
Columns the INSERT does not mention (`tags`, `explain_like_im_5`,
`file_storage_path`) stay NULL. -/
def add_entry (entry_data : NewEntryData) (new_id : String) (now : DateTime)
    (db : List Entry) : List Entry × String :=
  let e : Entry :=
    { id := new_id
      theme := entry_data.theme.getD "General"
      source_type := entry_data.source_type
      source_url := entry_data.source_url
      entry_date := entry_data.entry_date.getD now.ym
      process_stage := "Uploaded"
      tags := none
      summary_caption := some "Processing summary..."
      explain_like_im_5 := none
      file_storage_path := none
      created_at := now
      updated_at := now }
  (db ++ [e], new_id)

/-! ### Catalogue Store: `update_status` -/

/-- The optional `result_data` dict of `update_status`: each field models the
presence (`some`) or absence (`none`) of that key. -/
structure ResultData where
  summary_caption : Option String
  explain_like_im_5 : Option String
  tags : Option (List String)
  file_storage_path : Option String
deriving DecidableEq

/-- The four conditional `", column = ?"` additions of `update_status`,
applied in the source's order to a row already carrying the new
`process_stage` and `updated_at`. -/
def applyResultData (r : ResultData) (e : Entry) : Entry :=
  let e := match r.summary_caption with
    | some v => { e with summary_caption := some v }
    | none => e
  let e := match r.explain_like_im_5 with
    | some v => { e with explain_like_im_5 := some v }
    | none => e
  let e := match r.tags with
    | some v => { e with tags := some (jsonDumpsList v) }
    | none => e
  match r.file_storage_path with
  | some v => { e with file_storage_path := some v }
  | none => e

/-- `update_status(entry_id, stage, result_data)` of
`src/backend/database.py`: an UPDATE that always sets `process_stage` and
`updated_at = datetime.now()` (the parameter `now`) on every row whose id is
`entry_id`, and additionally sets each of the four result columns whose key
is present in `result_data` (a `None` dict skips all four, exactly like the
source's `if result_data:`). -/
def update_status (entry_id stage : String) (now : DateTime)
    (result_data : Option ResultData) (db : List Entry) : List Entry :=
  db.map fun e =>
    if e.id = entry_id then
      let e2 := { e with process_stage := stage, updated_at := now }
      match result_data with
      | some r => applyResultData r e2
      | none => e2
    else e

/-- `get_entry(entry_id)`: `SELECT * FROM entries WHERE id = ?` with
`fetchone()`, i.e. the first row with that id, or `None`. -/
def get_entry (entry_id : String) (db : List Entry) : Option Entry :=
  db.find? fun e => e.id = entry_id

/-! ### Catalogue Store: `get_paginated_entries` -/

/-- `ORDER BY updated_at DESC`: insertion of one row into a list already
sorted by `updated_at` descending. -/
def insertDesc (e : Entry) : List Entry → List Entry
  | [] => [e]
  | x :: xs =>
      if x.updated_at.instant ≤ e.updated_at.instant then e :: x :: xs
      else x :: insertDesc e xs

/-- Sorting by `updated_at` descending (one deterministic refinement of the
SQL `ORDER BY updated_at DESC`, which leaves ties unordered). -/
def sortByUpdatedDesc : List Entry → List Entry
  | [] => []
  | x :: xs => insertDesc x (sortByUpdatedDesc xs)

/-- SQLite `LIMIT ? OFFSET ?` semantics: a negative OFFSET acts as zero
(`Int.toNat` of a negative is zero), a negative LIMIT means no limit. -/
def applyLimitOffset (rows : List Entry) (limit offset : Int) : List Entry :=
  let dropped := rows.drop offset.toNat
  if limit < 0 then dropped else dropped.take limit.toNat

/-- `get_paginated_entries(page, limit, matching_ids)` of
`src/backend/database.py`: `offset = (page - 1) * limit`; the WHERE clause
`id IN (...)` is added to both the count query and the data query only when
`matching_ids` is truthy (`if matching_ids:`), so `None` *and the empty list*
leave both queries unrestricted; the count query has no LIMIT/OFFSET, the
data query orders by `updated_at DESC` and applies LIMIT/OFFSET. -/
def get_paginated_entries (db : List Entry) (page limit : Int)
    (matching_ids : Option (List String)) : List Entry × Nat :=
  let offset := (page - 1) * limit
  let filtered := match matching_ids with
    | some ids => if ids.isEmpty then db else db.filter fun e => ids.contains e.id
    | none => db
  let total := filtered.length
  let rows := applyLimitOffset (sortByUpdatedDesc filtered) limit offset
  (rows, total)

/-- Descending order on `updated_at`. -/
def updatedDescRel (a b : Entry) : Prop :=
  b.updated_at.instant ≤ a.updated_at.instant

lemma mem_insertDesc {e y : Entry} {l : List Entry} (h : y ∈ insertDesc e l) :
    y = e ∨ y ∈ l := by
  induction l with
  | nil => simpa [insertDesc] using h
  | cons x xs ih =>
      by_cases hx : x.updated_at.instant ≤ e.updated_at.instant
      · rw [insertDesc, if_pos hx] at h
        exact List.mem_cons.mp h
      · simp only [insertDesc, if_neg hx, List.mem_cons] at h
        rcases h with h | h
        · exact Or.inr (by simp [h])
        · rcases ih h with h | h
          · exact Or.inl h
          · exact Or.inr (List.mem_cons_of_mem _ h)

lemma pairwise_insertDesc {e : Entry} {l : List Entry}
    (h : List.Pairwise updatedDescRel l) :
    List.Pairwise updatedDescRel (insertDesc e l) := by
  induction l with
  | nil => simp [insertDesc, List.pairwise_singleton]
  | cons x xs ih =>
      rcases List.pairwise_cons.mp h with ⟨hx, hxs⟩
      by_cases hc : x.updated_at.instant ≤ e.updated_at.instant
      · simp only [insertDesc, if_pos hc]
        refine List.pairwise_cons.mpr ⟨?_, h⟩
        intro y hy
        rcases List.mem_cons.mp hy with hy | hy
        · subst hy; exact hc
        · exact le_trans (hx y hy) hc
      · simp only [insertDesc, if_neg hc]
        refine List.pairwise_cons.mpr ⟨?_, ih hxs⟩
        intro y hy
        rcases mem_insertDesc hy with hy | hy
        · subst hy; exact le_of_lt (lt_of_not_le hc)
        · exact hx y hy

lemma pairwise_sortByUpdatedDesc (l : List Entry) :
    List.Pairwise updatedDescRel (sortByUpdatedDesc l) := by
  induction l with
  | nil => simp [sortByUpdatedDesc]
  | cons x xs ih => exact pairwise_insertDesc ih

lemma applyLimitOffset_sublist (rows : List Entry) (limit offset : Int) :
    (applyLimitOffset rows limit offset).Sublist rows := by
  unfold applyLimitOffset
  by_cases h : limit < 0
  · simp only [if_pos h]
    exact List.drop_sublist _ _
  · simp only [if_neg h]
    exact ((rows.drop offset.toNat).take_sublist _).trans (List.drop_sublist _ _)

/-- Claim C2 (amended): `get_paginated_entries` computes
`offset = (page - 1) * limit`, restricts both the data rows and the total to
the id list whenever a *non-empty* list is given, orders the data rows by
`updated_at` descending, and applies LIMIT/OFFSET only to the data query, so
the total is independent of `page` and `limit`.  An empty id list is treated
exactly like `None` (no restriction) — this is where the claim as frozen
fails, see the counterexample. -/
theorem get_paginated_entries_claim (db : List Entry) (page limit : Int)
    (matching_ids : Option (List String)) :
    (get_paginated_entries db page limit matching_ids).2 =
      (match matching_ids with
        | some ids => if ids.isEmpty then db
                      else db.filter fun e => ids.contains e.id
        | none => db).length
    ∧ (get_paginated_entries db page limit matching_ids).1 =
        applyLimitOffset
          (sortByUpdatedDesc (match matching_ids with
            | some ids => if ids.isEmpty then db
                          else db.filter fun e => ids.contains e.id
            | none => db))
          limit ((page - 1) * limit)
    ∧ List.Pairwise updatedDescRel (get_paginated_entries db page limit matching_ids).1
    ∧ (∀ p l : Int, (get_paginated_entries db p l matching_ids).2 =
        (get_paginated_entries db page limit matching_ids).2)
    ∧ get_paginated_entries db page limit (some ([] : List String)) =
        get_paginated_entries db page limit none := by
  refine ⟨rfl, rfl, ?_, fun p l => rfl, rfl⟩
  exact List.Pairwise.sublist (applyLimitOffset_sublist _ _ _)
    (pairwise_sortByUpdatedDesc _)

/-- A concrete row used by the counterexample to claim C2. -/
def sampleEntry : Entry :=
  { id := "a", theme := "General", source_type := "link",
    source_url := some "http://example.com", entry_date := "2024-01",
    process_stage := "Uploaded", tags := none,
    summary_caption := some "Processing summary...",
    explain_like_im_5 := none, file_storage_path := none,
    created_at := ⟨0, "2024-01"⟩, updated_at := ⟨0, "2024-01"⟩ }

/-- Counterexample to claim C2 as frozen: with a provided *empty* matching-id
list the claim requires both the rows and the total to be restricted to ids
in that list (hence a total of 0 and no rows), but the code's truthiness test
`if matching_ids:` skips the WHERE clause for `[]`, so the total is 1 and the
row is returned on a one-row table. -/
theorem get_paginated_entries_cex :
    (get_paginated_entries [sampleEntry] 1 10 (some [])).2 = 1
    ∧ (get_paginated_entries [sampleEntry] 1 10 (some [])).1 = [sampleEntry]
    ∧ ([sampleEntry].filter fun e => ([] : List String).contains e.id).length = 0 := by
  refine ⟨rfl, ?_, rfl⟩
  decide

/-- Claim C1: every record persisted by `add_entry` has
`process_stage = "Uploaded"`, `summary_caption = "Processing summary..."` and
`created_at = updated_at`; a missing `theme` key is stored as `"General"`, a
missing `entry_date` key as the current year-month (`now.strftime("%Y-%m")`);
the generated id is returned and is the id of the new row. -/
theorem add_entry_claim (entry_data : NewEntryData) (new_id : String)
    (now : DateTime) (db : List Entry) :
    (add_entry entry_data new_id now db).2 = new_id
    ∧ ∃ e : Entry, (add_entry entry_data new_id now db).1 = db ++ [e]
        ∧ e.id = new_id
        ∧ e.process_stage = "Uploaded"
        ∧ e.summary_caption = some "Processing summary..."
        ∧ e.created_at = e.updated_at
        ∧ (entry_data.theme = none → e.theme = "General")
        ∧ (entry_data.entry_date = none → e.entry_date = now.ym)
        ∧ e.source_type = entry_data.source_type
        ∧ e.source_url = entry_data.source_url := by
  refine ⟨rfl, ⟨_, rfl, rfl, rfl, rfl, rfl, ?_, ?_, rfl, rfl⟩⟩
  · intro h; simp [h]
  · intro h; simp [h]

/-! ### Claim C3: the frame of `update_status` -/

/-- The value of a column after an optional overwrite: present key wins,
absent key keeps the old value. -/
def newOr (newVal old : Option String) : Option String :=
  match newVal with
  | some v => some v
  | none => old

lemma applyResultData_fields (r : ResultData) (e : Entry) :
    (applyResultData r e).id = e.id
    ∧ (applyResultData r e).theme = e.theme
    ∧ (applyResultData r e).source_type = e.source_type
    ∧ (applyResultData r e).source_url = e.source_url
    ∧ (applyResultData r e).entry_date = e.entry_date
    ∧ (applyResultData r e).created_at = e.created_at
    ∧ (applyResultData r e).process_stage = e.process_stage
    ∧ (applyResultData r e).updated_at = e.updated_at
    ∧ (applyResultData r e).summary_caption = newOr r.summary_caption e.summary_caption
    ∧ (applyResultData r e).explain_like_im_5 = newOr r.explain_like_im_5 e.explain_like_im_5
    ∧ (applyResultData r e).tags = newOr (r.tags.map jsonDumpsList) e.tags
    ∧ (applyResultData r e).file_storage_path = newOr r.file_storage_path e.file_storage_path := by
  rcases r with ⟨sc, el, tg, fp⟩
  cases sc <;> cases el <;> cases tg <;> cases fp <;>
    simp [applyResultData, newOr]

/-- The per-index effect of `update_status`: a helper shared by the claims
about `update_status` and the reprocess endpoint. -/
lemma update_status_getElem (entry_id stage : String) (now : DateTime)
    (result_data : Option ResultData) (db : List Entry) (i : Nat) (e : Entry)
    (he : db[i]? = some e) :
    (update_status entry_id stage now result_data db)[i]? =
      some (if e.id = entry_id then
          match result_data with
          | some r => applyResultData r { e with process_stage := stage, updated_at := now }
          | none => { e with process_stage := stage, updated_at := now }
        else e) := by
  unfold update_status
  rw [List.getElem?_map, he]
  rfl

/-- Claim C3: `update_status` preserves the table's length; on the row whose
id matches it always sets `process_stage` and `updated_at`, overwrites
exactly the four result columns whose key is present (`tags` serialized with
`json.dumps`), and leaves `id`, `theme`, `source_type`, `source_url`,
`entry_date`, `created_at` and every absent result column unchanged; a row
with a different id is untouched; with `result_data = None` only
`process_stage` and `updated_at` change. -/
theorem update_status_claim (entry_id stage : String) (now : DateTime)
    (result_data : Option ResultData) (db : List Entry) :
    (update_status entry_id stage now result_data db).length = db.length
    ∧ ∀ (i : Nat) (e : Entry), db[i]? = some e →
        ∃ e2, (update_status entry_id stage now result_data db)[i]? = some e2
        ∧ (e.id ≠ entry_id → e2 = e)
        ∧ (e.id = entry_id →
            e2.process_stage = stage
            ∧ e2.updated_at = now
            ∧ e2.id = e.id
            ∧ e2.theme = e.theme
            ∧ e2.source_type = e.source_type
            ∧ e2.source_url = e.source_url
            ∧ e2.entry_date = e.entry_date
            ∧ e2.created_at = e.created_at
            ∧ e2.summary_caption =
                newOr (result_data.bind fun r => r.summary_caption) e.summary_caption
            ∧ e2.explain_like_im_5 =
                newOr (result_data.bind fun r => r.explain_like_im_5) e.explain_like_im_5
            ∧ e2.tags =
                newOr ((result_data.bind fun r => r.tags).map jsonDumpsList) e.tags
            ∧ e2.file_storage_path =
                newOr (result_data.bind fun r => r.file_storage_path) e.file_storage_path) := by
  constructor
  · unfold update_status
    exact List.length_map _ _
  · intro i e he
    rw [update_status_getElem entry_id stage now result_data db i e he]
    refine ⟨_, rfl, ?_, ?_⟩
    · intro hne
      rw [if_neg hne]
    · intro hid
      rw [if_pos hid]
      cases result_data with
      | none => simp [newOr]
      | some r =>
          obtain ⟨h1, h2, h3, h4, h5, h6, h7, h8, h9, h10, h11, h12⟩ :=
            applyResultData_fields r { e with process_stage := stage, updated_at := now }
          simp_all

/-- A concrete result dict and a second concrete row for the C3 witness. -/
def sampleResult : ResultData :=
  { summary_caption := some "A summary", explain_like_im_5 := none,
    tags := some ["a", "b"], file_storage_path := none }

/-- Witness for claim C3 at a concrete input: on a one-row table the present
keys (`summary_caption`, `tags`) are overwritten, the absent ones
(`explain_like_im_5`, `file_storage_path`) and all non-result columns keep
their values. -/
theorem update_status_claim_witness :
    ∃ e2, (update_status "a" "Complete" ⟨5, "2024-02"⟩ (some sampleResult)
            [sampleEntry])[0]? = some e2
    ∧ (sampleEntry.id ≠ "a" → e2 = sampleEntry)
    ∧ (sampleEntry.id = "a" →
        e2.process_stage = "Complete"
        ∧ e2.updated_at = ⟨5, "2024-02"⟩
        ∧ e2.id = sampleEntry.id
        ∧ e2.theme = sampleEntry.theme
        ∧ e2.source_type = sampleEntry.source_type
        ∧ e2.source_url = sampleEntry.source_url
        ∧ e2.entry_date = sampleEntry.entry_date
        ∧ e2.created_at = sampleEntry.created_at
        ∧ e2.summary_caption =
            newOr ((some sampleResult).bind fun r => r.summary_caption)
              sampleEntry.summary_caption
        ∧ e2.explain_like_im_5 =
            newOr ((some sampleResult).bind fun r => r.explain_like_im_5)
              sampleEntry.explain_like_im_5
        ∧ e2.tags =
            newOr (((some sampleResult).bind fun r => r.tags).map jsonDumpsList)
              sampleEntry.tags
        ∧ e2.file_storage_path =
            newOr ((some sampleResult).bind fun r => r.file_storage_path)
              sampleEntry.file_storage_path) :=
  (update_status_claim "a" "Complete" ⟨5, "2024-02"⟩ (some sampleResult)
    [sampleEntry]).2 0 sampleEntry rfl

/-! ### Language-Model Analysis Chain: `analyze_text_content` -/

/-- The structured output schema `TextAnalysis` of `src/backend/llm_chain.py`
(pydantic model with fields `summary`, `eli5`, `tags`); `result.dict()`
returns exactly these three fields. -/
structure TextAnalysis where
  summary : String
  eli5 : String
  tags : List String
deriving DecidableEq

/-- `analyze_text_content(text)` of `src/backend/llm_chain.py`.  The chain
`prompt | llm | parser` is an external call whose outcome — a parsed
`TextAnalysis`, or any exception raised by the model invocation or by the
output parsing — is the parameter `chainResult`.  The `try` block returns the
parsed result's fields; the `except` block swallows every exception and
returns the fixed fallback dict. -/
def analyze_text_content (chainResult : Except String TextAnalysis) :
    TextAnalysis :=
  match chainResult with
  | .ok r => r
  | .error _ =>
      { summary := "Error generating summary", eli5 := "Error", tags := ["error"] }

/-- Claim C5: if the language-model invocation or the parsing of its response
fails for any reason, `analyze_text_content` does not propagate the failure
and returns exactly
`{summary: "Error generating summary", eli5: "Error", tags: ["error"]}`;
on success it returns the summary, eli5 and tags fields of the parsed
result. -/
theorem analyze_text_content_claim :
    (∀ msg, analyze_text_content (.error msg) =
      { summary := "Error generating summary", eli5 := "Error", tags := ["error"] })
    ∧ ∀ r, analyze_text_content (.ok r) = r :=
  ⟨fun _ => rfl, fun _ => rfl⟩

/-! ### Content Processing Utilities: `resize_image_for_storage`

The image pipeline delegates to the Pillow library; its observable effect on
an image's mode and dimensions is embedded here.  `PILImage` is the
descriptor of a decoded image (`Image.open`); `pilThumbnailSize` is the size
computation of Pillow's `Image.thumbnail((1920, 1920))` (fit in the box
preserving aspect ratio, floor/ceil chosen to best preserve the ratio, never
below 1, no upscaling); `pilSaveJpeg` is `img.save(..., format='JPEG',
quality=85)`, which only accepts the JPEG-writable modes and raises
`cannot write mode ... as JPEG` otherwise. -/

/-- A decoded Pillow image: its color mode string and pixel dimensions. -/
structure PILImage where
  mode : String
  width : Nat
  height : Nat
deriving DecidableEq

/-- The Pillow modes with an alpha channel (Pillow's `Image.MODES` taxonomy);
only used to state the counterexample about alpha handling. -/
def pilModeHasAlpha (m : String) : Bool :=
  ["RGBA", "LA", "PA", "RGBa", "La"].contains m

/-- The modes Pillow's JPEG encoder accepts (its `RAWMODE` table). -/
def jpegSaveModes : List String := ["1", "L", "RGB", "RGBX", "CMYK", "YCbCr"]

/-- Pillow's `round_aspect(number, key)` in the branch that recomputes the
width: `max(min(floor(number), ceil(number), key=lambda n: abs(aspect - n / y)), 1)`
with `y = bound` (Python's `min` keeps the first argument on a key tie). -/
def roundAspectX (number aspect : Rat) (bound : Nat) : Int :=
  max
    (if |aspect - ((⌈number⌉ : Int) : Rat) / (bound : Rat)| <
        |aspect - ((⌊number⌋ : Int) : Rat) / (bound : Rat)|
      then ⌈number⌉ else ⌊number⌋) 1

/-- Pillow's `round_aspect` in the branch that recomputes the height:
the key is `lambda n: 0 if n == 0 else abs(aspect - x / n)` with `x = bound`. -/
def roundAspectY (number aspect : Rat) (bound : Nat) : Int :=
  max
    (if (if ⌈number⌉ = 0 then 0 else |aspect - (bound : Rat) / ((⌈number⌉ : Int) : Rat)|) <
        (if ⌊number⌋ = 0 then 0 else |aspect - (bound : Rat) / ((⌊number⌋ : Int) : Rat)|)
      then ⌈number⌉ else ⌊number⌋) 1

/-- The size computed by Pillow's `Image.thumbnail((bound, bound))`: an image
already inside the box is untouched; otherwise `aspect = width / height`
and, writing `x = y = bound`, if `x / y >= aspect` the width becomes
`round_aspect(y * aspect)`, else the height becomes `round_aspect(x / aspect)`. -/
def pilThumbnailSize (w h bound : Nat) : Nat × Nat :=
  if bound ≥ w ∧ bound ≥ h then (w, h)
  else if (bound : Rat) / (bound : Rat) ≥ (w : Rat) / (h : Rat) then
    ((roundAspectX ((bound : Rat) * ((w : Rat) / (h : Rat)))
        ((w : Rat) / (h : Rat)) bound).toNat, bound)
  else
    (bound, (roundAspectY ((bound : Rat) / ((w : Rat) / (h : Rat)))
        ((w : Rat) / (h : Rat)) bound).toNat)

/-- The mode conversion of `resize_image_for_storage`:
`if img.mode in ("RGBA", "P"): img = img.convert("RGB")`. -/
def pilConvert (img : PILImage) : PILImage :=
  if img.mode = "RGBA" ∨ img.mode = "P" then { img with mode := "RGB" } else img

/-- The in-memory byte stream produced by `img.save(output_io, format='JPEG',
quality=85)`: what was encoded, at which quality, and the stream position. -/
structure JpegStream where
  mode : String
  width : Nat
  height : Nat
  quality : Nat
  pos : Nat
deriving DecidableEq

/-- Pillow's JPEG save: fails on a mode the encoder does not accept; on
success the stream position is at the end of the written bytes (the abstract
parameter `endPos`). -/
def pilSaveJpeg (img : PILImage) (quality endPos : Nat) : Except String JpegStream :=
  if jpegSaveModes.contains img.mode then
    .ok ⟨img.mode, img.width, img.height, quality, endPos⟩
  else .error ("cannot write mode " ++ img.mode ++ " as JPEG")

/-- `output_io.seek(0)`. -/
def seekStart (s : JpegStream) : JpegStream := { s with pos := 0 }

/-- `resize_image_for_storage(image_bytes)` of `src/backend/processing.py`:
decode (outcome is the parameter `decoded`), convert RGBA/P to RGB, thumbnail
to at most 1920×1920, save as JPEG quality 85, seek to the start; every
exception of the `try` block is printed and re-raised. -/
def resize_image_for_storage (decoded : Except String PILImage) (endPos : Nat) :
    Except String JpegStream :=
  match decoded with
  | .error e => .error e
  | .ok img =>
      match pilSaveJpeg
          ⟨(pilConvert img).mode,
           (pilThumbnailSize (pilConvert img).width (pilConvert img).height 1920).1,
           (pilThumbnailSize (pilConvert img).width (pilConvert img).height 1920).2⟩
          85 endPos with
      | .error e => .error e
      | .ok out => .ok (seekStart out)

lemma ite_floor_or_ceil (c : Prop) [Decidable c] (number : Rat) :
    (if c then ⌈number⌉ else ⌊number⌋) = ⌊number⌋ ∨
    (if c then ⌈number⌉ else ⌊number⌋) = ⌈number⌉ := by
  split_ifs <;> simp

lemma roundAspectX_form (number aspect : Rat) (bound : Nat) :
    roundAspectX number aspect bound = max ⌊number⌋ 1 ∨
    roundAspectX number aspect bound = max ⌈number⌉ 1 := by
  unfold roundAspectX
  rcases ite_floor_or_ceil
      (|aspect - ((⌈number⌉ : Int) : Rat) / (bound : Rat)| <
        |aspect - ((⌊number⌋ : Int) : Rat) / (bound : Rat)|) number with h | h <;>
    rw [h] <;> simp

lemma roundAspectY_form (number aspect : Rat) (bound : Nat) :
    roundAspectY number aspect bound = max ⌊number⌋ 1 ∨
    roundAspectY number aspect bound = max ⌈number⌉ 1 := by
  unfold roundAspectY
  rcases ite_floor_or_ceil
      ((if ⌈number⌉ = 0 then 0 else |aspect - (bound : Rat) / ((⌈number⌉ : Int) : Rat)|) <
        (if ⌊number⌋ = 0 then 0 else |aspect - (bound : Rat) / ((⌊number⌋ : Int) : Rat)|))
      number with h | h <;>
    rw [h] <;> simp

/-- `round_aspect` lands within one of its argument. -/
lemma max_one_close (number : Rat) (h0 : 0 ≤ number) (m : Int)
    (hm : m = ⌊number⌋ ∨ m = ⌈number⌉) :
    |(((max m 1).toNat : Nat) : Rat) - number| ≤ 1 := by
  have hnn : (0 : Int) ≤ max m 1 := le_trans zero_le_one (le_max_right m 1)
  have hcast : (((max m 1).toNat : Nat) : Rat) = ((max m 1 : Int) : Rat) := by
    exact_mod_cast congrArg (fun z : Int => (z : Rat)) (Int.toNat_of_nonneg hnn)
  rw [hcast]
  have hf : ((⌊number⌋ : Int) : Rat) ≤ number := Int.floor_le number
  have hf2 : number < ((⌊number⌋ : Int) : Rat) + 1 := Int.lt_floor_add_one number
  have hc : number ≤ ((⌈number⌉ : Int) : Rat) := Int.le_ceil number
  have hc2 : ((⌈number⌉ : Int) : Rat) < number + 1 := Int.ceil_lt_add_one number
  rcases max_choice m 1 with hmax | hmax <;> rw [hmax]
  · rcases hm with rfl | rfl <;> rw [abs_le] <;> constructor <;> linarith
  · have hm1 : m ≤ 1 := hmax ▸ le_max_left m 1
    have hm1Q : ((m : Int) : Rat) ≤ 1 := by exact_mod_cast hm1
    rcases hm with rfl | rfl <;> rw [abs_le] <;> constructor <;> push_cast <;> linarith

/-- `round_aspect` of a value inside the box stays inside the box. -/
lemma max_one_le_bound (number : Rat) (bound : Nat) (hb : 1 ≤ bound)
    (hle : number ≤ (bound : Rat)) (m : Int)
    (hm : m = ⌊number⌋ ∨ m = ⌈number⌉) :
    (max m 1).toNat ≤ bound := by
  have hceil : ⌈number⌉ ≤ (bound : Int) := Int.ceil_le.mpr (by exact_mod_cast hle)
  have hfc : ⌊number⌋ ≤ ⌈number⌉ := Int.floor_le_ceil number
  have hmle : m ≤ (bound : Int) := by rcases hm with rfl | rfl <;> omega
  have h1b : (1 : Int) ≤ (bound : Int) := by exact_mod_cast hb
  have : max m 1 ≤ (bound : Int) := max_le hmle h1b
  omega

/-- The behavior of Pillow's thumbnail size computation: never exceeds the
box, never upscales, and in the downscale case pins one dimension to the box
and keeps the other within one pixel of the exact aspect-preserving value. -/
lemma pilThumbnailSize_spec (w h bound : Nat) (hw : 1 ≤ w) (hh : 1 ≤ h)
    (hb : 1 ≤ bound) :
    (pilThumbnailSize w h bound).1 ≤ bound
    ∧ (pilThumbnailSize w h bound).2 ≤ bound
    ∧ (w ≤ bound → h ≤ bound → pilThumbnailSize w h bound = (w, h))
    ∧ (¬(w ≤ bound ∧ h ≤ bound) →
        ((pilThumbnailSize w h bound).2 = bound
          ∧ |((pilThumbnailSize w h bound).1 : Rat) - (bound : Rat) * w / h| ≤ 1)
        ∨ ((pilThumbnailSize w h bound).1 = bound
          ∧ |((pilThumbnailSize w h bound).2 : Rat) - (bound : Rat) * h / w| ≤ 1)) := by
  have hbQ : (0 : Rat) < (bound : Rat) := by exact_mod_cast Nat.lt_of_lt_of_le Nat.zero_lt_one hb
  have hwQ : (0 : Rat) < (w : Rat) := by exact_mod_cast Nat.lt_of_lt_of_le Nat.zero_lt_one hw
  have hhQ : (0 : Rat) < (h : Rat) := by exact_mod_cast Nat.lt_of_lt_of_le Nat.zero_lt_one hh
  by_cases hfits : bound ≥ w ∧ bound ≥ h
  · rw [pilThumbnailSize, if_pos hfits]
    exact ⟨hfits.1, hfits.2, fun _ _ => rfl, fun hcon => absurd ⟨hfits.1, hfits.2⟩ hcon⟩
  · rw [pilThumbnailSize, if_neg hfits]
    by_cases haspect : (bound : Rat) / (bound : Rat) ≥ (w : Rat) / (h : Rat)
    · rw [if_pos haspect]
      have haspect1 : (w : Rat) / (h : Rat) ≤ 1 := by
        rwa [div_self (ne_of_gt hbQ)] at haspect
      have hnn : 0 ≤ (bound : Rat) * ((w : Rat) / (h : Rat)) := by positivity
      have hnle : (bound : Rat) * ((w : Rat) / (h : Rat)) ≤ (bound : Rat) := by
        calc (bound : Rat) * ((w : Rat) / (h : Rat)) ≤ (bound : Rat) * 1 :=
              mul_le_mul_of_nonneg_left haspect1 (le_of_lt hbQ)
          _ = (bound : Rat) := mul_one _
      rcases roundAspectX_form ((bound : Rat) * ((w : Rat) / (h : Rat)))
          ((w : Rat) / (h : Rat)) bound with hform | hform <;>
        rw [hform] <;>
        refine ⟨max_one_le_bound _ bound hb hnle _ ?_, le_refl bound,
          fun h1 h2 => absurd ⟨h1, h2⟩ hfits, fun _ => Or.inl ⟨rfl, ?_⟩⟩
      · exact Or.inl rfl
      · rw [mul_div_assoc]
        exact max_one_close _ hnn _ (Or.inl rfl)
      · exact Or.inr rfl
      · rw [mul_div_assoc]
        exact max_one_close _ hnn _ (Or.inr rfl)
    · rw [if_neg haspect]
      have haspect1 : 1 < (w : Rat) / (h : Rat) := by
        rw [div_self (ne_of_gt hbQ)] at haspect
        exact lt_of_not_le haspect
      have hnn : 0 ≤ (bound : Rat) / ((w : Rat) / (h : Rat)) := by positivity
      have hnle : (bound : Rat) / ((w : Rat) / (h : Rat)) ≤ (bound : Rat) :=
        div_le_self (le_of_lt hbQ) (le_of_lt haspect1)
      rcases roundAspectY_form ((bound : Rat) / ((w : Rat) / (h : Rat)))
          ((w : Rat) / (h : Rat)) bound with hform | hform <;>
        rw [hform] <;>
        refine ⟨le_refl bound, max_one_le_bound _ bound hb hnle _ ?_,
          fun h1 h2 => absurd ⟨h1, h2⟩ hfits, fun _ => Or.inr ⟨rfl, ?_⟩⟩
      · exact Or.inl rfl
      · rw [div_div_eq_mul_div] at *
        exact max_one_close _ hnn _ (Or.inl rfl)
      · exact Or.inr rfl
      · rw [div_div_eq_mul_div] at *
        exact max_one_close _ hnn _ (Or.inr rfl)

/-- Claim C7 (amended): for a decodable image of positive dimensions whose
mode is RGBA, P, or already JPEG-writable, `resize_image_for_storage`
converts to plain RGB exactly when the mode is RGBA or indexed-palette P,
downscales so that neither dimension exceeds 1920 preserving the aspect
ratio to within one pixel and never upscaling, encodes as JPEG at quality
85 and returns the stream positioned at its start; a decode failure is
re-raised unchanged.  (The claim as frozen — conversion whenever the mode
*has an alpha channel* — fails for mode LA, see the counterexample.) -/
theorem resize_image_claim (img : PILImage) (endPos : Nat)
    (hw : 1 ≤ img.width) (hh : 1 ≤ img.height)
    (hmode : img.mode = "RGBA" ∨ img.mode = "P" ∨ jpegSaveModes.contains img.mode) :
    (∀ msg, resize_image_for_storage (.error msg) endPos = .error msg)
    ∧ ∃ out, resize_image_for_storage (.ok img) endPos = .ok out
        ∧ out.quality = 85
        ∧ out.pos = 0
        ∧ out.mode = (if img.mode = "RGBA" ∨ img.mode = "P" then "RGB" else img.mode)
        ∧ out.width ≤ 1920 ∧ out.height ≤ 1920
        ∧ (img.width ≤ 1920 → img.height ≤ 1920 →
            out.width = img.width ∧ out.height = img.height)
        ∧ (¬(img.width ≤ 1920 ∧ img.height ≤ 1920) →
            (out.height = 1920
              ∧ |(out.width : Rat) - 1920 * img.width / img.height| ≤ 1)
          ∨ (out.width = 1920
              ∧ |(out.height : Rat) - 1920 * img.height / img.width| ≤ 1)) := by
  refine ⟨fun msg => rfl, ?_⟩
  obtain ⟨hle1, hle2, hfits, hdown⟩ :=
    pilThumbnailSize_spec img.width img.height 1920 hw hh (by norm_num)
  by_cases hconv : img.mode = "RGBA" ∨ img.mode = "P"
  · have hpc : pilConvert img = { img with mode := "RGB" } := by
      rw [pilConvert, if_pos hconv]
    refine ⟨⟨"RGB", (pilThumbnailSize img.width img.height 1920).1,
        (pilThumbnailSize img.width img.height 1920).2, 85, 0⟩, ?_, rfl, rfl,
        by rw [if_pos hconv], hle1, hle2,
        fun h1 h2 => ⟨by rw [hfits h1 h2], by rw [hfits h1 h2]⟩, hdown⟩
    rw [resize_image_for_storage, hpc]
    rfl
  · have hpc : pilConvert img = img := by
      rw [pilConvert, if_neg hconv]
    have hcm : jpegSaveModes.contains img.mode = true := by tauto
    refine ⟨⟨img.mode, (pilThumbnailSize img.width img.height 1920).1,
        (pilThumbnailSize img.width img.height 1920).2, 85, 0⟩, ?_, rfl, rfl,
        by rw [if_neg hconv], hle1, hle2,
        fun h1 h2 => ⟨by rw [hfits h1 h2], by rw [hfits h1 h2]⟩, hdown⟩
    rw [resize_image_for_storage, hpc, pilSaveJpeg]
    simp only [hcm, if_pos]
    rfl

/-- Counterexample to claim C7 as frozen: mode `LA` (grayscale with alpha)
has an alpha channel, yet the code's check `img.mode in ("RGBA", "P")` does
not convert it to RGB, and the subsequent JPEG encode of an LA image raises
— the claimed RGB conversion and successful encoded return do not happen. -/
theorem resize_image_cex :
    pilModeHasAlpha "LA" = true
    ∧ resize_image_for_storage (.ok ⟨"LA", 100, 50⟩) 0 =
        .error "cannot write mode LA as JPEG" :=
  ⟨rfl, rfl⟩

/-- Witness for claim C7 (amended) at the concrete 4000×3000 RGBA image of
the spec's testable property 9. -/
theorem resize_image_claim_witness :
    (∀ msg, resize_image_for_storage (.error msg) 7 = .error msg)
    ∧ ∃ out, resize_image_for_storage (.ok ⟨"RGBA", 4000, 3000⟩) 7 = .ok out
        ∧ out.quality = 85
        ∧ out.pos = 0
        ∧ out.mode = (if ("RGBA" : String) = "RGBA" ∨ ("RGBA" : String) = "P"
            then "RGB" else "RGBA")
        ∧ out.width ≤ 1920 ∧ out.height ≤ 1920
        ∧ ((4000 : Nat) ≤ 1920 → (3000 : Nat) ≤ 1920 →
            out.width = 4000 ∧ out.height = 3000)
        ∧ (¬((4000 : Nat) ≤ 1920 ∧ (3000 : Nat) ≤ 1920) →
            (out.height = 1920 ∧ |(out.width : Rat) - 1920 * 4000 / 3000| ≤ 1)
          ∨ (out.width = 1920 ∧ |(out.height : Rat) - 1920 * 3000 / 4000| ≤ 1)) :=
  resize_image_claim ⟨"RGBA", 4000, 3000⟩ 7 (by norm_num) (by norm_num)
    (Or.inl rfl)

/-! ### Content Processing Utilities: `scrape_website` -/

/-- The outgoing request built by `scrape_website`:
`requests.get(url, headers={'User-Agent': 'Mozilla/5.0'}, timeout=10)`. -/
structure HttpRequest where
  url : String
  userAgent : String
  timeoutSeconds : Nat
deriving DecidableEq

/-- The document BeautifulSoup extracts from a response body.  `title`
models `soup.title` followed by `.string`: the outer `Option` is the
presence of a title element (`soup.title` is `None` when the page has
none), the inner `Option` is the element's `.string`, which is itself
`None` when the element does not contain exactly one string child (e.g. an
empty `<title></title>`).  `paragraphs` is the text of every `<p>` element
in document order. -/
structure HtmlDoc where
  title : Option (Option String)
  paragraphs : List String
deriving DecidableEq

/-- An HTTP response: its status code and parsed body. -/
structure HttpResponse where
  statusCode : Nat
  doc : HtmlDoc
deriving DecidableEq

/-- The scrape result dict `{"title": ..., "text": ...}`.  `title` can be a
Python string or Python `None` (modelled as `none`): the source's
`soup.title.string if soup.title else ""` yields `None` for a title element
without a single string child. -/
structure ScrapeResult where
  title : Option String
  text : String
deriving DecidableEq

/-- The request `scrape_website` issues for a url. -/
def scrapeRequest (url : String) : HttpRequest :=
  { url := url, userAgent := "Mozilla/5.0", timeoutSeconds := 10 }

/-- The paragraph loop: `text_content += p.get_text() + "\n"` over all
`<p>` elements. -/
def paragraphText (ps : List String) : String :=
  ps.foldl (fun acc p => acc ++ p ++ "\n") ""

/-- `title = soup.title.string if soup.title else ""`: the empty string when
the document has no title element, otherwise the element's `.string`
verbatim — including Python `None` when the element has no single string
child. -/
def scrapedTitle (titleElem : Option (Option String)) : Option String :=
  match titleElem with
  | none => some ""
  | some t => t

/-- `scrape_website(url)` of `src/backend/processing.py`.  The network is
the parameter `net` (a `requests.get` outcome per request: a response, or a
raised connection/timeout error).  `response.raise_for_status()` raises for
status codes in [400, 600); otherwise the title (empty string when the page
has no title element) and the concatenated paragraph text truncated to
10000 characters are returned.  Every exception is printed and re-raised. -/
def scrape_website (url : String)
    (net : HttpRequest → Except String HttpResponse) :
    Except String ScrapeResult :=
  match net (scrapeRequest url) with
  | .error e => .error e
  | .ok resp =>
      if 400 ≤ resp.statusCode ∧ resp.statusCode < 600 then
        .error ("HTTPError: status " ++ toString resp.statusCode)
      else
        .ok { title := scrapedTitle resp.doc.title,
              text := (paragraphText resp.doc.paragraphs).take 10000 }

/-- Claim C8 (amended): `scrape_website` issues a GET with a 10-second
timeout and the browser-like user-agent `Mozilla/5.0`; a network failure or
a non-success HTTP status (4xx/5xx) makes it raise, returning no partial
result; on success it returns the newline-separated text of every paragraph
element truncated to the first 10000 characters, and a title that is the
title element's `.string` when the document has a title element — which is
Python `None`, not a string, when that element lacks a single string child
— and the empty string when the document has no title element.  (The claim
as frozen — the page title, or `""` exactly when there is no title element
— fails for a present-but-empty title element, see the counterexample.) -/
theorem scrape_website_claim (url : String)
    (net : HttpRequest → Except String HttpResponse) :
    (scrapeRequest url).url = url
    ∧ (scrapeRequest url).userAgent = "Mozilla/5.0"
    ∧ (scrapeRequest url).timeoutSeconds = 10
    ∧ (∀ msg, net (scrapeRequest url) = .error msg →
        scrape_website url net = .error msg)
    ∧ (∀ resp, net (scrapeRequest url) = .ok resp →
        400 ≤ resp.statusCode → resp.statusCode < 600 →
        scrape_website url net =
          .error ("HTTPError: status " ++ toString resp.statusCode))
    ∧ (∀ resp, net (scrapeRequest url) = .ok resp →
        ¬(400 ≤ resp.statusCode ∧ resp.statusCode < 600) →
        scrape_website url net =
          .ok { title := scrapedTitle resp.doc.title,
                text := (paragraphText resp.doc.paragraphs).take 10000 })
    ∧ (∀ t, scrapedTitle (some t) = t)
    ∧ scrapedTitle none = some "" := by
  refine ⟨rfl, rfl, rfl, ?_, ?_, ?_, fun t => rfl, rfl⟩
  · intro msg hmsg
    rw [scrape_website, hmsg]
  · intro resp hresp h4 h6
    rw [scrape_website, hresp]
    simp only [if_pos (And.intro h4 h6)]
  · intro resp hresp hns
    rw [scrape_website, hresp]
    simp only [if_neg hns]

/-- Counterexample to claim C8 as frozen: a 200 response whose document has
a title element with no string child (`<title></title>`, so
`soup.title.string` is `None`).  The claim requires the returned title to be
the page title string — the empty string only when the document has *no*
title element — but the code returns Python `None`. -/
theorem scrape_website_cex :
    scrape_website "http://example.com"
        (fun _ => .ok ⟨200, { title := some none, paragraphs := ["x"] }⟩) =
        .ok { title := none, text := (paragraphText ["x"]).take 10000 }
    ∧ (none : Option String) ≠ some "" :=
  ⟨rfl, by decide⟩

/-! ### HTTP API Service: `upload_entry` (POST /api/upload) -/

/-- A FastAPI `UploadFile`: its (optional) client-supplied filename and its
bytes as read by `await file.read()`. -/
structure UploadedFile where
  filename : Option String
  content : List Nat
deriving DecidableEq

/-- A raised `HTTPException(status_code, detail)`. -/
structure HTTPError where
  statusCode : Nat
  detail : String
deriving DecidableEq

/-- The JSON body returned by the upload endpoint. -/
structure UploadResponse where
  message : String
  id : String
deriving DecidableEq

/-- The server state the handlers touch: the entries table and the
Background Task Processor's queue (`processor.add_task` appends an id). -/
structure AppState where
  entries : List Entry
  queue : List String
deriving DecidableEq

/-- Python's `str.split('.')`: splits at every dot, keeping empty pieces. -/
def splitDot : List Char → List (List Char)
  | [] => [[]]
  | c :: cs =>
      if c = '.' then [] :: splitDot cs
      else match splitDot cs with
        | [] => [[c]]
        | h :: t => (c :: h) :: t

/-- `file.filename.split('.')[-1] if file.filename else 'dat'`: a falsy
filename (absent or empty) yields `dat`; otherwise the last dot-separated
component — for a filename without a dot that is the whole filename. -/
def fileExtension (filename : Option String) : String :=
  match filename with
  | none => "dat"
  | some s => if s = "" then "dat"
      else String.mk ((splitDot s.toList).getLastD [])

/-- `temp_path = f"temp/{uuid.uuid4()}.{file_extension}"` (the drawn uuid is
the parameter `uid`). -/
def stagingPath (uid : String) (filename : Option String) : String :=
  "temp/" ++ uid ++ "." ++ fileExtension filename

/-- `upload_entry` of `src/backend/app.py`.  Parameters beyond the form
fields: `uploadToStorage` is `storage.upload_file` (bytes and object name to
an optional location), `uid` the uuid drawn for the staging path, `new_id`
the uuid `add_entry` draws, `now` its clock reading, `st` the server state.
Returns the response or the raised `HTTPException`, paired with the state
after the handler. -/
def upload_entry (theme entryDate ty : String) (url : Option String)
    (file : Option UploadedFile)
    (uploadToStorage : List Nat → String → Option String)
    (uid new_id : String) (now : DateTime) (st : AppState) :
    Except HTTPError UploadResponse × AppState :=
  if ty = "image" ∧ file.isNone then
    (.error ⟨400, "Image upload requires a file."⟩, st)
  else if ty = "link" ∧ url.isNone then
    (.error ⟨400, "Link upload requires a URL."⟩, st)
  else
    let staged : Except HTTPError (Option String) :=
      match file with
      | some f =>
          if ty = "image" then
            match uploadToStorage f.content (stagingPath uid f.filename) with
            | some loc => .ok (some loc)
            | none => .error ⟨500, "Failed to upload file to storage."⟩
          else if ty = "link" then .ok url
          else .ok none
      | none => if ty = "link" then .ok url else .ok none
    match staged with
    | .error err => (.error err, st)
    | .ok source_url =>
        let res := add_entry
          { theme := some theme, source_type := ty, source_url := source_url,
            entry_date := some entryDate } new_id now st.entries
        (.ok ⟨"Entry submitted and queued for processing.", res.2⟩,
         ⟨res.1, st.queue ++ [res.2]⟩)

/-- Claim C4: a POST /api/upload with `type == "image"` and no file fails
with a 400 error `Image upload requires a file.`; with `type == "link"` and
no url it fails with a 400 error `Link upload requires a URL.`; in both
cases the handler returns before touching the catalogue or the queue, so
the state is unchanged and no entry is created. -/
theorem upload_validation_claim (theme entryDate ty : String)
    (url : Option String) (file : Option UploadedFile)
    (uploadToStorage : List Nat → String → Option String)
    (uid new_id : String) (now : DateTime) (st : AppState) :
    (ty = "image" → file = none →
      upload_entry theme entryDate ty url file uploadToStorage uid new_id now st =
        (.error ⟨400, "Image upload requires a file."⟩, st))
    ∧ (ty = "link" → url = none →
      upload_entry theme entryDate ty url file uploadToStorage uid new_id now st =
        (.error ⟨400, "Link upload requires a URL."⟩, st)) := by
  constructor
  · intro hty hfile
    unfold upload_entry
    rw [if_pos ⟨hty, by rw [hfile]; rfl⟩]
  · intro hty hurl
    have hni : ¬(ty = "image" ∧ file.isNone) := by
      rintro ⟨h, -⟩
      rw [hty] at h
      exact absurd h (by decide)
    unfold upload_entry
    rw [if_neg hni, if_pos ⟨hty, by rw [hurl]; rfl⟩]

/-- Witness for claim C4 at concrete inputs: an image upload without a file
and a link upload without a url are both rejected with the state unchanged. -/
theorem upload_validation_claim_witness :
    (upload_entry "t" "2024-01" "image" (some "http://x") none (fun _ _ => none)
        "U" "N" ⟨0, "2024-01"⟩ ⟨[], []⟩ =
      (.error ⟨400, "Image upload requires a file."⟩, ⟨[], []⟩))
    ∧ (upload_entry "t" "2024-01" "link" none (some ⟨some "a.png", [1]⟩)
        (fun _ _ => none) "U" "N" ⟨0, "2024-01"⟩ ⟨[], []⟩ =
      (.error ⟨400, "Link upload requires a URL."⟩, ⟨[], []⟩)) :=
  ⟨(upload_validation_claim "t" "2024-01" "image" (some "http://x") none
      (fun _ _ => none) "U" "N" ⟨0, "2024-01"⟩ ⟨[], []⟩).1 rfl rfl,
   (upload_validation_claim "t" "2024-01" "link" none (some ⟨some "a.png", [1]⟩)
      (fun _ _ => none) "U" "N" ⟨0, "2024-01"⟩ ⟨[], []⟩).2 rfl rfl⟩

/-- Computation of the image path of `upload_entry`: the handler stages the
bytes under `stagingPath`, fails with 500 when storage returns no location,
and otherwise creates the entry with the returned location and enqueues the
new id. -/
lemma upload_entry_image_eq (theme entryDate : String) (url : Option String)
    (f : UploadedFile) (up : List Nat → String → Option String)
    (uid new_id : String) (now : DateTime) (st : AppState) :
    upload_entry theme entryDate "image" url (some f) up uid new_id now st =
      match up f.content (stagingPath uid f.filename) with
      | none => (.error ⟨500, "Failed to upload file to storage."⟩, st)
      | some loc =>
          (.ok ⟨"Entry submitted and queued for processing.", new_id⟩,
           ⟨(add_entry ⟨some theme, "image", some loc, some entryDate⟩
                new_id now st.entries).1,
            st.queue ++ [new_id]⟩) := by
  cases hcall : up f.content (stagingPath uid f.filename) with
  | none => simp +decide [upload_entry, hcall]
  | some loc =>
      simp +decide [upload_entry, hcall]
      rfl

/-- Claim C9 (amended): an image submission stages the file under
`temp/<uuid>.<ext>`, where `<ext>` is the last dot-separated component of
the original filename (the whole filename when it has no dot) and is `dat`
only when the filename is absent or empty; storage is consulted only at
that path; if the staging upload returns an absent location the handler
fails with a 500 error `Failed to upload file to storage.` and the state —
catalogue and queue — is unchanged, so no entry is created; on success the
created entry records the returned location.  (The claim as frozen — `dat`
whenever the filename has no extension — fails for the filename `readme`,
see the counterexample.) -/
theorem upload_staging_claim (theme entryDate : String) (url : Option String)
    (f : UploadedFile) (up up2 : List Nat → String → Option String)
    (uid new_id : String) (now : DateTime) (st : AppState) :
    stagingPath uid f.filename = "temp/" ++ uid ++ "." ++ fileExtension f.filename
    ∧ fileExtension none = "dat"
    ∧ fileExtension (some "") = "dat"
    ∧ (up f.content (stagingPath uid f.filename) = none →
        upload_entry theme entryDate "image" url (some f) up uid new_id now st =
          (.error ⟨500, "Failed to upload file to storage."⟩, st))
    ∧ (up f.content (stagingPath uid f.filename) =
          up2 f.content (stagingPath uid f.filename) →
        upload_entry theme entryDate "image" url (some f) up uid new_id now st =
          upload_entry theme entryDate "image" url (some f) up2 uid new_id now st)
    ∧ (∀ loc, up f.content (stagingPath uid f.filename) = some loc →
        ∃ e, (upload_entry theme entryDate "image" url (some f) up uid new_id
              now st).2.entries = st.entries ++ [e]
          ∧ e.source_url = some loc ∧ e.id = new_id
          ∧ (upload_entry theme entryDate "image" url (some f) up uid new_id
              now st).1 =
              .ok ⟨"Entry submitted and queued for processing.", new_id⟩) := by
  refine ⟨rfl, rfl, rfl, ?_, ?_, ?_⟩
  · intro hcall
    rw [upload_entry_image_eq, hcall]
  · intro hagree
    rw [upload_entry_image_eq, hagree, upload_entry_image_eq]
  · intro loc hcall
    rw [upload_entry_image_eq, hcall]
    exact ⟨_, rfl, rfl, rfl, rfl⟩

/-- Counterexample to claim C9 as frozen: the filename `readme` has no
extension, yet the staging path gets extension `readme` — the whole
filename — not the claimed default `dat`; concretely the created entry's
`source_url` records the path `temp/U.readme`. -/
theorem upload_staging_cex :
    fileExtension (some "readme") = "readme"
    ∧ ("readme" : String) ≠ "dat"
    ∧ stagingPath "U" (some "readme") = "temp/U.readme"
    ∧ (upload_entry "t" "2024-01" "image" none
        (some ⟨some "readme", [1]⟩) (fun _ p => some p) "U" "N"
        ⟨0, "2024-01"⟩ ⟨[], []⟩).2.entries.map (fun e => e.source_url) =
        [some "temp/U.readme"] := by
  refine ⟨rfl, by decide, rfl, ?_⟩
  rfl

/-- Witness for claim C9 (amended) at a concrete input: a failing storage
upload leaves the state unchanged and yields the 500 error. -/
theorem upload_staging_claim_witness :
    stagingPath "U" (some "a.png") =
      "temp/" ++ "U" ++ "." ++ fileExtension (some "a.png")
    ∧ fileExtension none = "dat"
    ∧ fileExtension (some "") = "dat"
    ∧ ((fun (_ : List Nat) (_ : String) => (none : Option String))
          (UploadedFile.mk (some "a.png") [1]).content
          (stagingPath "U" (UploadedFile.mk (some "a.png") [1]).filename) = none →
        upload_entry "t" "2024-01" "image" none (some ⟨some "a.png", [1]⟩)
          (fun _ _ => none) "U" "N" ⟨0, "2024-01"⟩ ⟨[], []⟩ =
          (.error ⟨500, "Failed to upload file to storage."⟩, ⟨[], []⟩)) := by
  obtain ⟨h1, h2, h3, h4, -, -⟩ :=
    upload_staging_claim "t" "2024-01" none (⟨some "a.png", [1]⟩ : UploadedFile)
      (fun _ _ => none) (fun _ _ => none) "U" "N" ⟨0, "2024-01"⟩ ⟨[], []⟩
  exact ⟨h1, h2, h3, h4⟩

/-- Computation of the path of `upload_entry` for a type that is neither
`image` nor `link`: no validation applies, `source_url` stays `None`, the
entry is created and enqueued. -/
lemma upload_entry_other_eq (theme entryDate ty : String) (url : Option String)
    (file : Option UploadedFile) (up : List Nat → String → Option String)
    (uid new_id : String) (now : DateTime) (st : AppState)
    (h1 : ty ≠ "image") (h2 : ty ≠ "link") :
    upload_entry theme entryDate ty url file up uid new_id now st =
      (.ok ⟨"Entry submitted and queued for processing.", new_id⟩,
       ⟨(add_entry ⟨some theme, ty, none, some entryDate⟩
            new_id now st.entries).1,
        st.queue ++ [new_id]⟩) := by
  cases file with
  | none =>
      simp [upload_entry, h1, h2]
      rfl
  | some f =>
      simp [upload_entry, h1, h2]
      rfl

/-- Claim C10: a POST /api/upload whose `type` is neither `image` nor
`link` raises no validation error: an entry is created with `source_url`
absent and `source_type` equal to the submitted type string, and the new id
is enqueued on the Background Task Processor. -/
theorem upload_other_type_claim (theme entryDate ty : String)
    (url : Option String) (file : Option UploadedFile)
    (up : List Nat → String → Option String) (uid new_id : String)
    (now : DateTime) (st : AppState)
    (h1 : ty ≠ "image") (h2 : ty ≠ "link") :
    ∃ e, (upload_entry theme entryDate ty url file up uid new_id now st).2.entries
          = st.entries ++ [e]
      ∧ e.source_url = none
      ∧ e.source_type = ty
      ∧ e.id = new_id
      ∧ (upload_entry theme entryDate ty url file up uid new_id now st).2.queue
          = st.queue ++ [new_id]
      ∧ (upload_entry theme entryDate ty url file up uid new_id now st).1
          = .ok ⟨"Entry submitted and queued for processing.", new_id⟩ := by
  rw [upload_entry_other_eq theme entryDate ty url file up uid new_id now st h1 h2]
  exact ⟨_, rfl, rfl, rfl, rfl, rfl, rfl⟩

/-- Witness for claim C10 at the concrete type `pdf`. -/
theorem upload_other_type_claim_witness :
    ∃ e, (upload_entry "t" "2024-01" "pdf" none none (fun _ _ => none) "U" "N"
          ⟨0, "2024-01"⟩ ⟨[], []⟩).2.entries = ([] : List Entry) ++ [e]
      ∧ e.source_url = none
      ∧ e.source_type = "pdf"
      ∧ e.id = "N"
      ∧ (upload_entry "t" "2024-01" "pdf" none none (fun _ _ => none) "U" "N"
          ⟨0, "2024-01"⟩ ⟨[], []⟩).2.queue = ([] : List String) ++ ["N"]
      ∧ (upload_entry "t" "2024-01" "pdf" none none (fun _ _ => none) "U" "N"
          ⟨0, "2024-01"⟩ ⟨[], []⟩).1
          = .ok ⟨"Entry submitted and queued for processing.", "N"⟩ :=
  upload_other_type_claim "t" "2024-01" "pdf" none none (fun _ _ => none)
    "U" "N" ⟨0, "2024-01"⟩ ⟨[], []⟩ (by decide) (by decide)

/-! ### HTTP API Service: `reprocess_entry` (POST /api/reprocess) -/

/-- `reprocess_entry` of `src/backend/app.py`: loads the entry (404 when
absent), resets its stage to `Uploaded` through `update_status` (no result
dict), appends the id to the processor's queue, and returns the
confirmation message. -/
def reprocess_entry (entry_id : String) (now : DateTime) (st : AppState) :
    Except HTTPError String × AppState :=
  match get_entry entry_id st.entries with
  | none => (.error ⟨404, "Entry not found."⟩, st)
  | some _ =>
      (.ok ("Entry " ++ entry_id ++ " reset to Uploaded and re-queued."),
       ⟨update_status entry_id "Uploaded" now none st.entries,
        st.queue ++ [entry_id]⟩)

/-- Claim C6: reprocessing an unknown id fails with a 404 error
`Entry not found.` and leaves the state unchanged; reprocessing an existing
entry resets its `process_stage` to `Uploaded` while leaving `theme`,
`source_type` and `source_url` unchanged (rows with other ids untouched),
appends the id to the Background Task Processor's queue exactly once, and
returns a confirmation message. -/
theorem reprocess_entry_claim (entry_id : String) (now : DateTime)
    (st : AppState) :
    (get_entry entry_id st.entries = none →
      reprocess_entry entry_id now st = (.error ⟨404, "Entry not found."⟩, st))
    ∧ (∀ e0, get_entry entry_id st.entries = some e0 →
        (reprocess_entry entry_id now st).2.queue = st.queue ++ [entry_id]
        ∧ (reprocess_entry entry_id now st).2.queue.count entry_id =
            st.queue.count entry_id + 1
        ∧ (reprocess_entry entry_id now st).1 =
            .ok ("Entry " ++ entry_id ++ " reset to Uploaded and re-queued.")
        ∧ (reprocess_entry entry_id now st).2.entries.length = st.entries.length
        ∧ ∀ (i : Nat) (e : Entry), st.entries[i]? = some e →
            ∃ e2, (reprocess_entry entry_id now st).2.entries[i]? = some e2
            ∧ e2.theme = e.theme
            ∧ e2.source_type = e.source_type
            ∧ e2.source_url = e.source_url
            ∧ (e.id = entry_id → e2.process_stage = "Uploaded")
            ∧ (e.id ≠ entry_id → e2 = e)) := by
  constructor
  · intro h
    unfold reprocess_entry
    rw [h]
  · intro e0 h
    unfold reprocess_entry
    rw [h]
    refine ⟨rfl, ?_, rfl, ?_, ?_⟩
    · simp [List.count_append]
    · exact List.length_map _ _
    · intro i e he
      rw [update_status_getElem entry_id "Uploaded" now none st.entries i e he]
      by_cases hid : e.id = entry_id
      · rw [if_pos hid]
        exact ⟨_, rfl, rfl, rfl, rfl, fun _ => rfl, fun hne => absurd hid hne⟩
      · rw [if_neg hid]
        exact ⟨_, rfl, rfl, rfl, rfl, fun hcon => absurd hcon hid, fun _ => rfl⟩

end KnowledgeAtlas
